import Mathlib

/-!
Shallow embedding of the Mir X11-compatibility bridge
(`src/server/frontend_xwayland/xwayland_connector.cpp`,
`src/server/frontend_xwayland/xwayland_server.h` and its implementation),
together with theorems settling the specification's claims about it.

The `XWaylandConnector` owns four components behind one mutex:
`spawner` (XWaylandSpawner), `server` (XWaylandServer), `wm` (XWaylandWM)
and `wm_event_thread` (ThreadedDispatcher), plus a `restart_in_progress`
flag.  We model presence of each component as a `Bool` and every member
function as a state transformer, with log output and (where a claim needs
it) an explicit action trace recording lock operations, ownership moves
and destructor runs.
-/

namespace XWayland

/-- Log messages emitted by the connector code (`mir::log_info` / `log`
calls in `xwayland_connector.cpp`), abstracted to an enumeration. -/
inductive LogMsg
  | listening        -- "Listening for X11 connections on DISPLAY %s"
  | xwaylandRunning  -- "XWayland is running"
  | xwaylandStopped  -- "XWayland stopped"
  | spawnFailed      -- "Spawning XWayland failed"
  | wmError          -- "X11 window manager error, killing XWayland"
  deriving DecidableEq, Repr

/-- The construction steps inside the `try` block of
`XWaylandConnector::spawn()`, in source order: the `XWaylandServer`
constructor, the `XWaylandWM` constructor, the `ReadableFd` dispatcher
construction, and the `ThreadedDispatcher` (thread) construction.  A value
of this type identifies the step whose exception escapes. -/
inductive SpawnStep
  | serverCtor
  | wmCtor
  | dispatcherCtor
  | threadCtor
  deriving DecidableEq, Repr

/-- The mutex-protected state of `XWaylandConnector`: presence of the four
owned components (`std::unique_ptr` non-null) and the
`restart_in_progress` flag. -/
structure ConnectorState where
  spawner : Bool
  server : Bool
  wm : Bool
  wm_event_thread : Bool
  restart_in_progress : Bool
  deriving DecidableEq, Repr

/-- The state with no components and no restart pending (freshly
constructed, or after `stop()`). -/
def stoppedState : ConnectorState :=
  { spawner := false, server := false, wm := false, wm_event_thread := false,
    restart_in_progress := false }

/-- `XWaylandConnector::create_spawner`: creates the spawner if absent
(the lock is held by the caller). -/
def create_spawner (s : ConnectorState) : ConnectorState :=
  if s.spawner then s else { s with spawner := true }

/-- State effect of `XWaylandConnector::tear_down`: all four owned
pointers are moved out (so the connector state loses all four components);
the `restart_in_progress` flag is not touched. -/
def tear_down_state (s : ConnectorState) : ConnectorState :=
  { s with spawner := false, server := false, wm := false, wm_event_thread := false }

/-- `XWaylandConnector::stop()`: clears `restart_in_progress` and calls
`tear_down`. -/
def stop_state (s : ConnectorState) : ConnectorState :=
  tear_down_state { s with restart_in_progress := false }

/-- `XWaylandConnector::start()`: if the host reports the "x11-support"
extension, creates the spawner and logs; otherwise does nothing. -/
def start_op (x11_support : Bool) (s : ConnectorState) : ConnectorState × List LogMsg :=
  if x11_support then (create_spawner s, [.listening]) else (s, [])

/-- `XWaylandConnector::socket_name()`: returns the spawner's display
identifier if a spawner exists, an empty optional otherwise.  `dsp` stands
for `spawner->x11_display()`. -/
def socket_name (dsp : String) (s : ConnectorState) : Option String :=
  if s.spawner then some dsp else none

/-- `XWaylandConnector::restart`: sets `restart_in_progress` and schedules
the deferred teardown/respawn task on the main loop (the scheduled task
itself is `deferred_restart_task` below).  Called with the lock held; the
state change is only the flag. -/
def restart (s : ConnectorState) : ConnectorState :=
  { s with restart_in_progress := true }

/-- The connector state at the moment the exception of step `st` escapes
inside `spawn()`'s `try` block: every assignment textually before that
step has completed (`server = ...`, then `wm = ...`; the `ReadableFd` and
`ThreadedDispatcher` constructions assign `wm_event_thread` only after
both succeed). -/
def spawn_failure_state : SpawnStep → ConnectorState → ConnectorState
  | .serverCtor, s => s
  | .wmCtor, s => { s with server := true }
  | .dispatcherCtor, s => { s with server := true }
  | .threadCtor, s => { s with server := true, wm := true }

/-- The body of `spawn()`'s `try` block, as a fallible computation: on
success all three triad components are assigned; an escaping exception at
step `st` yields `.error` carrying the step and the partial state at the
throw point.  `fail` is the environment's choice of which construction
step (if any) throws. -/
def spawn_body (fail : Option SpawnStep) (s : ConnectorState) :
    Except (SpawnStep × ConnectorState) ConnectorState :=
  match fail with
  | none => .ok { s with server := true, wm := true, wm_event_thread := true }
  | some .serverCtor => .error (.serverCtor, spawn_failure_state .serverCtor s)
  | some .wmCtor => .error (.wmCtor, spawn_failure_state .wmCtor s)
  | some .dispatcherCtor => .error (.dispatcherCtor, spawn_failure_state .dispatcherCtor s)
  | some .threadCtor => .error (.threadCtor, spawn_failure_state .threadCtor s)

/-- The guard at the top of `XWaylandConnector::spawn()`: return at once
if a server exists, no spawner exists, or a restart is in progress. -/
def spawn_guard (s : ConnectorState) : Bool :=
  s.server || !s.spawner || s.restart_in_progress

/-- `XWaylandConnector::spawn()`: under the lock, if the guard holds this
is a no-op; otherwise the `try` block runs and a caught exception is
logged and converted into `restart` on the partial state.  The function is
total: no exception escapes to the caller. -/
def spawn (fail : Option SpawnStep) (s : ConnectorState) : ConnectorState × List LogMsg :=
  if spawn_guard s then (s, [])
  else
    match spawn_body fail s with
    | .ok s' => (s', [.xwaylandRunning])
    | .error (_, ps) => (restart ps, [.spawnFailed])

/-- The deferred task posted by `restart` onto the main loop: re-acquire
the lock; if `restart_in_progress` was cleared (a concurrent `stop()`),
return; otherwise tear down, re-check the flag, and if still set clear it
and recreate the spawner. -/
def deferred_restart_task (s : ConnectorState) : ConnectorState :=
  if !s.restart_in_progress then s
  else
    let s1 := tear_down_state s
    if !s1.restart_in_progress then s1
    else create_spawner { s1 with restart_in_progress := false }

/-- The `wm_dispatcher` callback installed on the `ReadableFd`
(`xwayland_connector.cpp`): under the connector's lock, invoke
`wm->handle_events()` only if `wm` is present.  The returned `Bool`
records whether `handle_events` was invoked; `handle_events` itself does
not change the connector state. -/
def wm_dispatcher_callback (s : ConnectorState) : ConnectorState × Bool :=
  if s.wm then (s, true) else (s, false)

/-- The exception handler passed to the `ThreadedDispatcher`: log the
window-manager error, take the lock, and call `restart`. -/
def wm_error_handler (s : ConnectorState) : ConnectorState × List LogMsg :=
  (restart s, [.wmError])

/-- Modelled from the spec: the `ThreadedDispatcher` (BridgeThread)
implementation is not part of the sources here; per the spec, "the
dispatcher invoking the ProtocolBridge is wrapped so that any escaping
error is caught and converted into a `restart()` call rather than
terminating the thread".  One BridgeThread iteration therefore runs the
dispatcher callback and, when `wm->handle_events()` throws, runs the
registered exception handler instead; the final `Bool` records that the
thread survives the iteration. -/
def bridge_thread_iteration (wm_throws : Bool) (s : ConnectorState) :
    ConnectorState × List LogMsg × Bool :=
  if wm_throws then
    let r := wm_error_handler s
    (r.1, r.2, true)
  else
    ((wm_dispatcher_callback s).1, [], true)

/-- The four components owned by the connector, for the action trace. -/
inductive Component
  | spawner
  | server
  | wm
  | wmEventThread
  deriving DecidableEq, Repr

/-- Observable actions of `stop()` / `tear_down()`, in program order:
mutex operations, moving a component's ownership out of the connector
state into a local, running a component's destructor (the local's
`reset()` / scope exit), clearing the restart flag, and logging. -/
inductive Action
  | acquireLock
  | releaseLock
  | moveOut (c : Component)
  | destroy (c : Component)
  | clearRestartFlag
  | logMsg (m : LogMsg)
  deriving DecidableEq, Repr

/-- Action trace of `XWaylandConnector::tear_down` (entered with the lock
held): record `was_running`, move all four owned pointers into locals
(`spawner`, `wm_event_thread`, `wm`, `server` in source order), unlock,
then `reset()` each local in the same order; finally log if a server had
been running. -/
def tear_down_actions (s : ConnectorState) : List Action :=
  [.moveOut .spawner, .moveOut .wmEventThread, .moveOut .wm, .moveOut .server,
   .releaseLock,
   .destroy .spawner, .destroy .wmEventThread, .destroy .wm, .destroy .server]
  ++ (if s.server then [.logMsg .xwaylandStopped] else [])

/-- Action trace of `XWaylandConnector::stop()`: acquire the lock, clear
`restart_in_progress`, then `tear_down` (which releases the lock before
destroying anything). -/
def stop_actions (s : ConnectorState) : List Action :=
  [.acquireLock, .clearRestartFlag] ++ tear_down_actions s

/-- Decides whether some `destroy` action in the trace happens while the
(single, non-recursive) connector mutex is held; `held` is the lock state
on entry to the trace. -/
def destroy_while_locked : List Action → Bool → Bool
  | [], _ => false
  | .acquireLock :: rest, _ => destroy_while_locked rest true
  | .releaseLock :: rest, _ => destroy_while_locked rest false
  | .destroy _ :: rest, held => held || destroy_while_locked rest held
  | _ :: rest, held => destroy_while_locked rest held

/-- Decides whether some `moveOut` action in the trace happens while the
connector mutex is NOT held. -/
def move_while_unlocked : List Action → Bool → Bool
  | [], _ => false
  | .acquireLock :: rest, _ => move_while_unlocked rest true
  | .releaseLock :: rest, _ => move_while_unlocked rest false
  | .moveOut _ :: rest, held => !held || move_while_unlocked rest held
  | _ :: rest, held => move_while_unlocked rest held

/-- The externally triggerable transitions of the connector, for stating
state invariants: the public operations and the internal ones (bridge
failure handling and the deferred restart task).  `socket_name` does not
mutate and is represented by `queryName`. -/
inductive StepOp
  | startOp (x11_support : Bool)
  | stopOp
  | spawnOp (fail : Option SpawnStep)
  | queryName
  | bridgeIteration (wm_throws : Bool)
  | deferredRestart
  deriving DecidableEq, Repr

/-- State effect of one transition. -/
def apply_step : StepOp → ConnectorState → ConnectorState
  | .startOp x11, s => (start_op x11 s).1
  | .stopOp, s => stop_state s
  | .spawnOp fail, s => (spawn fail s).1
  | .queryName, s => s
  | .bridgeIteration t, s => (bridge_thread_iteration t s).1
  | .deferredRestart, s => deferred_restart_task s

/-- The triad invariant claimed by the spec: `server`, `wm` and
`wm_event_thread` are all present or all absent. -/
def triad_atomic (s : ConnectorState) : Bool :=
  (s.server && s.wm && s.wm_event_thread) || (!s.server && !s.wm && !s.wm_event_thread)

/-- The amended invariant: the triad is all-present-or-all-absent whenever
no restart is in progress (a failed `spawn` may leave a partial triad, but
only with `restart_in_progress` set, until the deferred task tears it
down). -/
def triad_atomic_unless_restarting (s : ConnectorState) : Bool :=
  s.restart_in_progress || triad_atomic s

end XWayland

namespace XWayland

/-!
Model of `XWaylandServer` (`xwayland_server.h` implementation): process
liveness supervision (`is_running`), the fork/exec of the child, and the
startup handshake (`connect_xwayland_wl_client` with `spin_wait_for`).
-/

/-- The lock-protected liveness record of `XWaylandServer`:
`{ running, exit_code }` (the `mutable` members read and written by
`is_running`). -/
structure Liveness where
  running : Bool
  exit_code : Option Nat
  deriving DecidableEq, Repr

/-- What one non-blocking `waitpid(pid, &status, WNOHANG)` call reports:
`stillRunning` is a return value of 0 (no state change to collect);
`exited code` is a nonzero return with `WIFEXITED(status)` true and
`WEXITSTATUS(status) = code`; `otherChange` is any other nonzero return
(killed by a signal, or a `waitpid` error). -/
inductive WaitReport
  | stillRunning
  | exited (code : Nat)
  | otherChange
  deriving DecidableEq, Repr

/-- `XWaylandServer::is_running()`: under the record's lock, if `running`
is still true perform one `WNOHANG` reap; on a nonzero report flip
`running` to false and, if the child exited normally, latch `exit_code`.
Returns `(new record, result, reap attempted)`. -/
def is_running (w : WaitReport) (l : Liveness) : Liveness × Bool × Bool :=
  if l.running then
    match w with
    | .stillRunning => (l, true, true)
    | .exited code => ({ running := false, exit_code := some code }, false, true)
    | .otherChange => ({ l with running := false }, false, true)
  else
    (l, false, false)

/-- Runs `is_running` over a sequence of reap reports, collecting the
returned values. -/
def is_running_seq : List WaitReport → Liveness → Liveness × List Bool
  | [], l => (l, [])
  | w :: ws, l =>
    let r := is_running w l
    let rest := is_running_seq ws r.1
    (rest.1, r.2.1 :: rest.2)

/-- Time is measured in polling periods of 100 ms; the 5 s budget of
`spin_wait_for` is 50 periods. -/
def spin_poll_budget : Nat := 50

/-- The loop of `spin_wait_for`: while the deadline has not passed and
`xserver_ready` is unset, sleep 100 ms (advance one tick); on exit return
the current value of `xserver_ready`.  `ready t` is whether the child's
readiness signal has been delivered by tick `t`. -/
def spin_loop (ready : Nat → Bool) : Nat → Nat → Bool
  | now, 0 => ready now
  | now, fuel + 1 => if ready now then true else spin_loop ready (now + 1) fuel

/-- `spin_wait_for(xserver_ready)`: poll for up to 5 s at 100 ms. -/
def spin_wait_for (ready : Nat → Bool) : Bool :=
  spin_loop ready 0 spin_poll_budget

/-- The three exceptions `connect_xwayland_wl_client` can throw. -/
inductive HandshakeError
  | clientHandleTimeout  -- "Creating XWayland wl_client timed out" (10 s cv wait)
  | nullClientHandle     -- "Failed to create XWayland wl_client"
  | readinessTimeout     -- "XWayland server failed to start"
  deriving DecidableEq, Repr

/-- Observable actions of the handshake, in program order: installing the
temporary `SIGUSR1` handler, restoring the previous handler, throwing, or
returning the created client handle. -/
inductive HsAction
  | installHandler
  | restoreHandler
  | throwErr (e : HandshakeError)
  | returnClient
  deriving DecidableEq, Repr

/-- Action trace of `connect_xwayland_wl_client`: install the temporary
`SIGUSR1` handler; wait (10 s ceiling) for the client handle — a timeout
or a null handle throws at once; otherwise run `spin_wait_for`, restore
the previous handler, and then either throw on readiness timeout or
return the client.  `client_ready_in_time` is whether the
condition-variable wait finished within 10 s, `client_nonnull` whether
`wl_client_create` returned non-null, and `ready` the readiness-signal
delivery times. -/
def connect_xwayland_wl_client (client_ready_in_time client_nonnull : Bool)
    (ready : Nat → Bool) : List HsAction :=
  [.installHandler] ++
    (if !client_ready_in_time then [.throwErr .clientHandleTimeout]
     else if !client_nonnull then [.throwErr .nullClientHandle]
     else
       let timed_out := !spin_wait_for ready
       [.restoreHandler] ++
         (if timed_out then [.throwErr .readinessTimeout] else [.returnClient]))

/-- Whether the temporary handler is restored somewhere in a handshake
trace (before the trace's exit action, since the trace ends at the
throw/return). -/
def handler_restored (tr : List HsAction) : Bool :=
  tr.contains .restoreHandler

/-- The error a handshake trace exits with, if any. -/
def trace_error : List HsAction → Option HandshakeError
  | [] => none
  | .throwErr e :: _ => some e
  | _ :: rest => trace_error rest

/-- Error kinds surfaced by the spawn path. -/
inductive ErrorKind
  | resourceCreationFailure  -- std::system_error (socket pair / fork failure)
  | fatalUsageError          -- fatal_error(...): aborts the process, not catchable
  deriving DecidableEq, Repr

/-- The `XWaylandConnector` constructor body: `access(xwayland_path,
F_OK | X_OK)` failing triggers `fatal_error` ("Cannot execute Xwayland");
otherwise construction succeeds with the empty state.
`path_executable` is whether the access check passes. -/
def xwayland_connector_ctor (path_executable : Bool) :
    Except ErrorKind ConnectorState :=
  if path_executable then .ok stoppedState else .error .fatalUsageError

/-- The environment and argument vector `exec_xwayland` hands to
`execvp`, plus the descriptors it marked inheritable (cleared
close-on-exec) and the `SIGUSR1` disposition it set. -/
structure ExecCall where
  argv : List String
  env_wayland_socket : Nat
  inherited_fds : List Nat
  sigusr1_ignored : Bool
  deriving DecidableEq, Repr

/-- `exec_xwayland`: clears close-on-exec on the two donated descriptors,
sets `WAYLAND_SOCKET` to the child's Wayland descriptor number, sets the
`SIGUSR1` handler to ignore, and builds the argument vector
`[path, display, "-rootless", "-wm", wm_fd, "-terminate"]` followed by a
`("-listen", fd)` pair per listening descriptor (each also marked
inheritable) and the optional `MIR_XWAYLAND_OPTION` environment value. -/
def exec_xwayland (xwayland_path dsp : String)
    (wayland_client_fd x11_wm_server_fd : Nat) (socket_fds : List Nat)
    (mir_xwayland_option : Option String) : ExecCall :=
  { env_wayland_socket := wayland_client_fd,
    inherited_fds := [wayland_client_fd, x11_wm_server_fd] ++ socket_fds,
    sigusr1_ignored := true,
    argv :=
      [xwayland_path, dsp, "-rootless", "-wm", toString x11_wm_server_fd, "-terminate"]
        ++ socket_fds.flatMap (fun fd => ["-listen", toString fd])
        ++ (match mir_xwayland_option with | some o => [o] | none => []) }

/-- What becomes of the forked child: it either executes the
compatibility binary or — when `execvp` returns, i.e. fails — calls
`abort()`. -/
inductive ChildFate
  | execed (call : ExecCall)
  | aborted (attempted : ExecCall)
  deriving DecidableEq, Repr

/-- The parent-side record of a successful fork
(`XWaylandServer::XWaylandProcess`). -/
structure XWaylandProcess where
  pid : Nat
  wayland_server_fd : Nat
  x11_wm_client_fd : Nat
  deriving DecidableEq, Repr

/-- `fork_xwayland_process`: create the Wayland and window-manager socket
pairs (failure of either throws a `std::system_error`, the
resource-creation failure); fork (failure likewise); in the child run
`exec_xwayland` on the donated ends (`wayland.client`, `x11_wm.server`)
and abort if exec fails; in the parent keep `wayland.server` and
`x11_wm.client` in the process record.  A socket pair is `some (client,
server)` when `socketpair` succeeds; `fork_result` is `some pid` when
`fork` succeeds. -/
def fork_xwayland_process (wayland_pipe x11_wm_pipe : Option (Nat × Nat))
    (fork_result : Option Nat) (exec_succeeds : Bool) (xwayland_path dsp : String)
    (socket_fds : List Nat) (mir_xwayland_option : Option String) :
    Except ErrorKind (XWaylandProcess × ChildFate) :=
  match wayland_pipe with
  | none => .error .resourceCreationFailure
  | some wp =>
    match x11_wm_pipe with
    | none => .error .resourceCreationFailure
    | some xp =>
      match fork_result with
      | none => .error .resourceCreationFailure
      | some pid =>
        let call := exec_xwayland xwayland_path dsp wp.1 xp.2 socket_fds mir_xwayland_option
        let fate := if exec_succeeds then ChildFate.execed call else ChildFate.aborted call
        .ok ({ pid := pid, wayland_server_fd := wp.2, x11_wm_client_fd := xp.1 }, fate)

/-- The connector state in which only the spawner exists (the `Listening`
state), used as a concrete input in witnesses. -/
def listeningState : ConnectorState :=
  { spawner := true, server := false, wm := false, wm_event_thread := false,
    restart_in_progress := false }

/-- C3: if a server already exists, or no spawner exists, or a restart is
in progress, `spawn()` returns at once: the state is unchanged (none of
the four components is touched, so no process or thread is created) and
nothing is logged, whatever the environment (`fail`) would have done. -/
theorem spawn_noop_under_guards (s : ConnectorState) (fail : Option SpawnStep)
    (h : s.server = true ∨ s.spawner = false ∨ s.restart_in_progress = true) :
    spawn fail s = (s, []) := by
  unfold spawn spawn_guard
  rcases h with h | h | h <;> simp [h]

/-- Witness for C3 at a concrete state with a server present. -/
theorem spawn_noop_under_guards_witness :
    ({ spawner := true, server := true, wm := true, wm_event_thread := true,
       restart_in_progress := false } : ConnectorState).server = true ∧
    spawn none
        { spawner := true, server := true, wm := true, wm_event_thread := true,
          restart_in_progress := false } =
      ({ spawner := true, server := true, wm := true, wm_event_thread := true,
         restart_in_progress := false }, []) :=
  ⟨rfl, spawn_noop_under_guards _ none (Or.inl rfl)⟩

/-- C2: if `stop()` runs after `restart` set the flag and scheduled the
deferred task but before that task executes, then `stop()` leaves the
connector fully stopped (all four components absent, flag clear), and the
deferred task — observing `restart_in_progress` false — changes nothing:
it tears nothing down and creates no new spawner, so the connector
remains in the `Stopped` state. -/
theorem stop_preempts_deferred_restart (s : ConnectorState) :
    stop_state (restart s) = stoppedState ∧
    deferred_restart_task (stop_state (restart s)) = stop_state (restart s) := by
  constructor
  · simp [stop_state, restart, tear_down_state, stoppedState]
  · simp [deferred_restart_task, stop_state, restart, tear_down_state]

/-- C10: the `wm_dispatcher` callback invokes `wm->handle_events()`
exactly when the `wm` component is present (second component of the
result), and never changes the connector state; in particular when the
triad has been torn down (`wm` absent) the callback is a no-op and
`handle_events` is not invoked. -/
theorem wm_dispatcher_guarded (s : ConnectorState) :
    wm_dispatcher_callback s = (s, s.wm) := by
  unfold wm_dispatcher_callback
  cases h : s.wm <;> simp

/-- C1: every exception escaping a construction step inside `spawn()`'s
`try` block is caught by the `catch` clause, logged ("Spawning XWayland
failed") and converted into `restart` of the partial state at the throw
point — `spawn` is a total function, so nothing propagates to its caller;
and an exception escaping the window manager's event processing on the
BridgeThread is routed to the registered handler, which logs the
window-manager error and calls `restart`, the thread surviving the
iteration. -/
theorem spawn_and_bridge_failures_restart (s : ConnectorState) (st : SpawnStep)
    (hguard : spawn_guard s = false) :
    spawn (some st) s = (restart (spawn_failure_state st s), [.spawnFailed]) ∧
    (∀ t : ConnectorState, bridge_thread_iteration true t = (restart t, [.wmError], true)) := by
  constructor
  · unfold spawn
    rw [hguard]
    cases st <;> simp [spawn_body]
  · intro t
    simp [bridge_thread_iteration, wm_error_handler]

/-- Witness for C1 at the listening state with the `XWaylandWM`
constructor throwing. -/
theorem spawn_and_bridge_failures_restart_witness :
    spawn (some .wmCtor) listeningState =
      (restart (spawn_failure_state .wmCtor listeningState), [.spawnFailed]) ∧
    bridge_thread_iteration true listeningState =
      (restart listeningState, [.wmError], true) :=
  ⟨(spawn_and_bridge_failures_restart listeningState .wmCtor (by decide)).1,
   (spawn_and_bridge_failures_restart listeningState .wmCtor (by decide)).2 listeningState⟩

/-- C4: for every connector state, `stop()` leaves all four owned
components absent with `restart_in_progress` false; and in `stop()`'s
action trace (entered with the lock free), every `moveOut` of a component
happens while the mutex is held and every component destructor runs only
after the mutex has been released — no destructor runs under the
connector's lock. -/
theorem stop_clears_all_and_destroys_unlocked (s : ConnectorState) :
    stop_state s = stoppedState ∧
    destroy_while_locked (stop_actions s) false = false ∧
    move_while_unlocked (stop_actions s) false = false := by
  refine ⟨?_, ?_, ?_⟩
  · simp [stop_state, tear_down_state, stoppedState]
  · cases h : s.server <;> simp [stop_actions, tear_down_actions, h] <;> decide
  · cases h : s.server <;> simp [stop_actions, tear_down_actions, h] <;> decide

/-- C5 counterexample: start the connector (x11 support enabled) and let
`spawn()` fail in the `XWaylandWM` constructor.  After `spawn()` — a
public operation — completes, the state has `server` present but `wm` and
`wm_event_thread` absent: the triad is observably partial, refuting the
claimed all-present-or-all-absent invariant. -/
theorem triad_not_atomic_after_failed_spawn :
    ((spawn (some .wmCtor) (start_op true stoppedState).1).1).server = true ∧
    ((spawn (some .wmCtor) (start_op true stoppedState).1).1).wm = false ∧
    triad_atomic ((spawn (some .wmCtor) (start_op true stoppedState).1).1) = false := by
  decide

/-- C5 (amended): the triad is all-present-or-all-absent in every state
with `restart_in_progress` false, and this is preserved by every public
operation and internal transition; a failed `spawn` may leave a partial
triad only with `restart_in_progress` set, until the deferred restart
task tears it down. -/
theorem triad_atomic_preserved_unless_restarting (op : StepOp) (s : ConnectorState)
    (h : triad_atomic_unless_restarting s = true) :
    triad_atomic_unless_restarting (apply_step op s) = true := by
  rcases s with ⟨sp, sv, w, th, r⟩
  revert h
  cases sp <;> cases sv <;> cases w <;> cases th <;> cases r <;>
    cases op <;>
      first
        | decide
        | (rename_i a
           cases a <;>
             first
               | decide
               | (rename_i b; cases b <;> decide))

/-- Witness for the amended C5 at a concrete transition. -/
theorem triad_atomic_preserved_unless_restarting_witness :
    triad_atomic_unless_restarting listeningState = true ∧
    triad_atomic_unless_restarting (apply_step (.spawnOp none) listeningState) = true :=
  ⟨by decide, triad_atomic_preserved_unless_restarting (.spawnOp none) listeningState (by decide)⟩

/-- For a readiness flag that stays set once set, the spin loop started
`fuel` polls before the deadline returns the flag's value at the
deadline. -/
theorem spin_loop_eq_of_monotone (ready : Nat → Bool)
    (mono : ∀ t u, t ≤ u → ready t = true → ready u = true) :
    ∀ (fuel now : Nat), spin_loop ready now fuel = ready (now + fuel) := by
  intro fuel
  induction fuel with
  | zero => intro now; simp [spin_loop]
  | succ f ih =>
    intro now
    by_cases h : ready now = true
    · rw [spin_loop, if_pos h]
      exact (mono now (now + (f + 1)) (Nat.le_add_right _ _) h).symm
    · rw [spin_loop, if_neg h, ih (now + 1)]
      congr 1
      omega

/-- C6 counterexample: on the client-handle-creation-timeout exit path of
the handshake, the exception is thrown before the temporary `SIGUSR1`
handler is restored, refuting the claim that the handler is restored on
every exit path. -/
theorem handler_not_restored_on_client_timeout :
    handler_restored (connect_xwayland_wl_client false true (fun _ => false)) = false ∧
    trace_error (connect_xwayland_wl_client false true (fun _ => false)) =
      some .clientHandleTimeout := by
  decide

/-- C6 (amended): after the client handle exists, the parent spin-waits
up to 5 seconds polling at 100 ms (for a latched readiness flag the wait
is decided by the 50th poll), and a readiness timeout is a fatal startup
error; the temporary `SIGUSR1` handler is restored before the handshake
returns on the success path and before it throws on the readiness-timeout
path, but on the client-handle-creation-timeout and null-client-handle
paths the exception propagates without the handler being restored. -/
theorem handshake_spin_wait_and_restoration :
    (∀ ready : Nat → Bool, (∀ t u, t ≤ u → ready t = true → ready u = true) →
        spin_wait_for ready = ready spin_poll_budget) ∧
    spin_wait_for (fun _ => false) = false ∧
    (∀ ready : Nat → Bool, spin_wait_for ready = false →
        trace_error (connect_xwayland_wl_client true true ready) = some .readinessTimeout ∧
        handler_restored (connect_xwayland_wl_client true true ready) = true) ∧
    (∀ ready : Nat → Bool, spin_wait_for ready = true →
        trace_error (connect_xwayland_wl_client true true ready) = none ∧
        handler_restored (connect_xwayland_wl_client true true ready) = true) ∧
    (∀ ready : Nat → Bool,
        handler_restored (connect_xwayland_wl_client false true ready) = false ∧
        handler_restored (connect_xwayland_wl_client true false ready) = false ∧
        trace_error (connect_xwayland_wl_client false true ready) =
          some .clientHandleTimeout ∧
        trace_error (connect_xwayland_wl_client true false ready) =
          some .nullClientHandle) := by
  refine ⟨?_, ?_, ?_, ?_, ?_⟩
  · intro ready mono
    unfold spin_wait_for
    simpa using spin_loop_eq_of_monotone ready mono spin_poll_budget 0
  · decide
  · intro ready h
    simp [connect_xwayland_wl_client, h, trace_error, handler_restored]
  · intro ready h
    simp [connect_xwayland_wl_client, h, trace_error, handler_restored]
  · intro ready
    refine ⟨?_, ?_, ?_, ?_⟩ <;>
      simp [connect_xwayland_wl_client, trace_error, handler_restored]

/-- Witness for the amended C6: the never-ready environment times out,
throws the readiness-timeout error and still restores the handler. -/
theorem handshake_spin_wait_and_restoration_witness :
    trace_error (connect_xwayland_wl_client true true (fun _ => false)) =
      some .readinessTimeout ∧
    handler_restored (connect_xwayland_wl_client true true (fun _ => false)) = true :=
  handshake_spin_wait_and_restoration.2.2.1 (fun _ => false) (by decide)

/-- Decides that a `Bool` sequence never goes from `false` back to
`true` (adjacent check suffices). -/
def monotone_outputs : List Bool → Bool
  | [] => true
  | [_] => true
  | a :: b :: rest => (a || !b) && monotone_outputs (b :: rest)

/-- Once the record says not-running, every further `is_running` call
leaves the record unchanged, returns false, and attempts no reap. -/
theorem is_running_seq_stopped (ws : List WaitReport) (l : Liveness)
    (h : l.running = false) :
    is_running_seq ws l = (l, ws.map (fun _ => false)) := by
  induction ws with
  | nil => simp [is_running_seq]
  | cons w ws ih =>
    simp [is_running_seq, is_running, h, ih]

/-- Prepending `true` does not affect monotonicity of an output list. -/
theorem monotone_outputs_cons_true (bs : List Bool) :
    monotone_outputs (true :: bs) = monotone_outputs bs := by
  cases bs <;> simp [monotone_outputs]

/-- An all-false output list is monotone. -/
theorem monotone_outputs_all_false (bs : List Bool) (h : ∀ b ∈ bs, b = false) :
    monotone_outputs bs = true := by
  induction bs with
  | nil => rfl
  | cons b bs ih =>
    cases bs with
    | nil => rfl
    | cons b' bs' =>
      have hb' : b' = false := h b' (by simp)
      subst hb'
      have hrest : monotone_outputs (false :: bs') = true :=
        ih (fun x hx => h x (by simp [hx]))
      simp [monotone_outputs, hrest]

/-- The outputs of any `is_running` call sequence are monotone: once an
observation returns false, all later observations return false. -/
theorem is_running_seq_monotone (ws : List WaitReport) :
    ∀ l : Liveness, monotone_outputs (is_running_seq ws l).2 = true := by
  induction ws with
  | nil => intro l; rfl
  | cons w ws ih =>
    intro l
    by_cases hr : l.running = true
    · cases w with
      | stillRunning =>
        simp only [is_running_seq, is_running, hr, if_pos]
        simpa [monotone_outputs_cons_true] using ih l
      | exited code =>
        simp only [is_running_seq, is_running, hr, if_pos]
        rw [is_running_seq_stopped ws _ rfl]
        exact monotone_outputs_all_false _ (by simp)
      | otherChange =>
        simp only [is_running_seq, is_running, hr, if_pos]
        rw [is_running_seq_stopped ws _ rfl]
        exact monotone_outputs_all_false _ (by simp)
    · rw [Bool.not_eq_true] at hr
      rw [is_running_seq_stopped (w :: ws) l hr]
      exact monotone_outputs_all_false _ (by simp)

/-- C7: `is_running` performs one non-blocking reap only while `running`
is still true; the first call observing the child's exit latches the exit
code (when the child exited normally) and flips `running` to false; once
false, every later call returns false, changes nothing and attempts no
reap; and over any call sequence the results are monotone (never
false-then-true). -/
theorem is_running_latches_and_monotone :
    (∀ (l : Liveness) (code : Nat), l.running = true →
        is_running (.exited code) l =
          ({ running := false, exit_code := some code }, false, true)) ∧
    (∀ (l : Liveness), l.running = true →
        is_running .otherChange l = ({ l with running := false }, false, true)) ∧
    (∀ (l : Liveness), l.running = true →
        is_running .stillRunning l = (l, true, true)) ∧
    (∀ (l : Liveness) (w : WaitReport), l.running = false →
        is_running w l = (l, false, false)) ∧
    (∀ (ws : List WaitReport) (l : Liveness), l.running = false →
        is_running_seq ws l = (l, ws.map (fun _ => false))) ∧
    (∀ (ws : List WaitReport) (l : Liveness),
        monotone_outputs (is_running_seq ws l).2 = true) := by
  refine ⟨?_, ?_, ?_, ?_, ?_, ?_⟩
  · intro l code h; simp [is_running, h]
  · intro l h; simp [is_running, h]
  · intro l h; simp [is_running, h]
  · intro l w h; simp [is_running, h]
  · intro ws l h; exact is_running_seq_stopped ws l h
  · intro ws l; exact is_running_seq_monotone ws l

/-- Witness for C7: a running record observing a normal exit with code 3
latches the code; a stopped record is untouched by a further report. -/
theorem is_running_latches_and_monotone_witness :
    is_running (.exited 3) { running := true, exit_code := none } =
      ({ running := false, exit_code := some 3 }, false, true) ∧
    is_running .stillRunning { running := false, exit_code := some 3 } =
      ({ running := false, exit_code := some 3 }, false, false) :=
  ⟨is_running_latches_and_monotone.1 { running := true, exit_code := none } 3 rfl,
   is_running_latches_and_monotone.2.2.2.1 { running := false, exit_code := some 3 }
     .stillRunning rfl⟩

/-- C8 counterexample: a non-executable `xwayland_path` makes the
`XWaylandConnector` constructor invoke `fatal_error` — a fatal usage
error that terminates the process — which is not the catchable
`ResourceCreationFailure` (`std::system_error`) the claim names. -/
theorem bad_path_is_fatal_not_resource_failure :
    xwayland_connector_ctor false = .error .fatalUsageError ∧
    ErrorKind.fatalUsageError ≠ ErrorKind.resourceCreationFailure := by
  refine ⟨rfl, ?_⟩
  decide

/-- C8 (amended): a non-executable compatibility-binary path is rejected
by the `XWaylandConnector` constructor with `fatal_error` (a fatal usage
error, before any component, process or thread exists — a successful
construction starts with all four components absent);
`ResourceCreationFailure` is instead the error kind of a socket-pair or
fork failure during spawn; and if a bad path survives to exec time, the
child aborts after the failed exec, leaving no dangling child. -/
theorem bad_path_fatal_and_resource_failures (wp xp : Option (Nat × Nat))
    (fr : Option Nat) (p d : String) (fds : List Nat) (o : Option String)
    (hfail : wp = none ∨ xp = none ∨ fr = none) :
    xwayland_connector_ctor false = .error .fatalUsageError ∧
    xwayland_connector_ctor true = .ok stoppedState ∧
    fork_xwayland_process wp xp fr false p d fds o = .error .resourceCreationFailure ∧
    (∀ (wpp xpp : Nat × Nat) (pid : Nat),
        fork_xwayland_process (some wpp) (some xpp) (some pid) false p d fds o =
          .ok ({ pid := pid, wayland_server_fd := wpp.2, x11_wm_client_fd := xpp.1 },
               .aborted (exec_xwayland p d wpp.1 xpp.2 fds o))) := by
  refine ⟨rfl, rfl, ?_, ?_⟩
  · rcases hfail with h | h | h
    · rw [h]; rfl
    · rw [h]
      cases wp <;> rfl
    · rw [h]
      cases wp with
      | none => rfl
      | some wpp => cases xp <;> rfl
  · intro wpp xpp pid
    simp [fork_xwayland_process]

/-- Witness for the amended C8 with a failing Wayland socket pair. -/
theorem bad_path_fatal_and_resource_failures_witness :
    fork_xwayland_process none (some (3, 4)) (some 42) false "xw" ":0" [] none =
      .error .resourceCreationFailure :=
  (bad_path_fatal_and_resource_failures none (some (3, 4)) (some 42) "xw" ":0" [] none
    (Or.inl rfl)).2.2.1

/-- C9: the child is exec'd with argument vector `[binary_path, display,
"-rootless", "-wm", control_fd, "-terminate"]` followed by one
`("-listen", fd)` pair per listening descriptor and the optional
`MIR_XWAYLAND_OPTION` value; `WAYLAND_SOCKET` is set to the child's
Wayland descriptor number; `SIGUSR1` is set to ignored before exec; and
when exec fails the forked child aborts. -/
theorem exec_argument_vector (p d : String) (wfd xfd : Nat) (fds : List Nat)
    (o : Option String) :
    (exec_xwayland p d wfd xfd fds o).argv =
      [p, d, "-rootless", "-wm", toString xfd, "-terminate"]
        ++ fds.flatMap (fun fd => ["-listen", toString fd])
        ++ o.toList ∧
    (exec_xwayland p d wfd xfd fds o).env_wayland_socket = wfd ∧
    (exec_xwayland p d wfd xfd fds o).sigusr1_ignored = true ∧
    (exec_xwayland p d wfd xfd fds o).inherited_fds = [wfd, xfd] ++ fds ∧
    (∀ (wpp xpp : Nat × Nat) (pid : Nat) (mo : Option String),
        (fork_xwayland_process (some wpp) (some xpp) (some pid) false p d fds mo).map
            (fun r => r.2) =
          .ok (.aborted (exec_xwayland p d wpp.1 xpp.2 fds mo))) := by
  refine ⟨?_, rfl, rfl, rfl, ?_⟩
  · cases o <;> simp [exec_xwayland]
  · intro wpp xpp pid mo
    simp [fork_xwayland_process, Except.map]

end XWayland

